import Mathlib

/-
Verification of the token-acquisition pipeline and its cache
(src/cache.rs, src/authentication.rs, src/main.rs), as a shallow
embedding: remote exchanges are modelled by an environment that supplies
each endpoint response, and every observable side effect of one run is
collected in an event trace.
-/

namespace MCC

/-- Model of chrono DateTime of Utc: seconds since the Unix epoch plus a
subsecond nanosecond component. -/
structure ChronoDateTimeUtc where
  secs : Int
  nanos : Nat
deriving DecidableEq

/-- The instant denoted, in nanoseconds since the Unix epoch; comparison
of two chrono instants is comparison of this value. -/
def ChronoDateTimeUtc.toNanos (t : ChronoDateTimeUtc) : Int :=
  t.secs * 1000000000 + t.nanos

/-- Model of chrono adding Duration::seconds to an instant, as main does
when converting the relative expires_in to an absolute expiry. -/
def ChronoDateTimeUtc.addSeconds (t : ChronoDateTimeUtc) (s : Nat) : ChronoDateTimeUtc :=
  ⟨t.secs + s, t.nanos⟩

/-- Model of a toml_edit Datetime (the expiry_time field in src/cache.rs).
A TOML datetime is either a full date-time carrying an offset, which
chrono can parse back into an instant, or one of the local variants (a
date-time, date, or time without an offset), which chrono
DateTime::from_str rejects. The offset variant carries the instant it
denotes in seconds and nanoseconds since the Unix epoch. -/
inductive TomlDatetime where
  | offset (secs : Int) (nanos : Nat)
  | localDatetime (secs : Int) (nanos : Nat)
  | localDate (year month day : Nat)
  | localTime (hour minute second : Nat)
deriving DecidableEq

/-- Textual form of a TOML datetime. The rendering abstracts the concrete
RFC 3339 character sequence: no claim inspects the exact characters, only
which fields the text depends on, so any injective rendering serves. -/
def TomlDatetime.render : TomlDatetime → String
  | .offset s n => "offset-datetime " ++ toString s ++ "." ++ toString n
  | .localDatetime s n => "local-datetime " ++ toString s ++ "." ++ toString n
  | .localDate y m d => "local-date " ++ toString y ++ "-" ++ toString m ++ "-" ++ toString d
  | .localTime h m s => "local-time " ++ toString h ++ ":" ++ toString m ++ ":" ++ toString s

/-- Model of chrono DateTime::from_str applied to the textual form of a
TOML datetime (src/cache.rs, the expiry check): only a datetime carrying
an offset parses; the local variants fail, which the source turns into a
panic. -/
def TomlDatetime.chronoParse : TomlDatetime → Option ChronoDateTimeUtc
  | .offset s n => some ⟨s, n⟩
  | _ => none

/-- CachedSessionToken (src/cache.rs): the bearer token together with the
textual timestamp of its expiry. -/
structure CachedSessionToken where
  token : String
  expiry_time : TomlDatetime
deriving DecidableEq

/-- Cache (src/cache.rs): the persisted record of the long-lived
Microsoft refresh token and the short-lived Minecraft session token. -/
structure Cache where
  microsoft_refresh_token : String
  minecraft_token : CachedSessionToken
deriving DecidableEq

/-- CachedSessionToken::new: the expiry instant is printed with
to_rfc3339_opts(SecondsFormat::Secs, true), which keeps whole seconds and
drops the nanosecond part, and that text is parsed back as a TOML offset
datetime (the Z suffix carries the offset). Datetime::from_str cannot
fail on an RFC 3339 string, so the source Result is always Ok and the
constructor is total here. -/
def CachedSessionToken.new (token : String) (expiry_time : ChronoDateTimeUtc) :
    CachedSessionToken :=
  ⟨token, .offset expiry_time.secs 0⟩

/-- CachedSessionToken::get_token: re-parse the stored TOML datetime with
chrono. A datetime chrono cannot parse panics in the source
(unwrap_or_else with panic), modelled as Except.error carrying the panic
message; otherwise the token is returned exactly when the expiry is
strictly later than the current instant, and an expired token yields Ok
none rather than an error. -/
def CachedSessionToken.get_token (self : CachedSessionToken)
    (now : ChronoDateTimeUtc) : Except String (Option String) :=
  match self.expiry_time.chronoParse with
  | none => .error ("Failed to parse expiry time " ++ self.expiry_time.render)
  | some expiry =>
    if now.toNanos < expiry.toNanos then .ok (some self.token) else .ok none

/-- Cache::get_minecraft_token: delegate to the session-token validity
check. -/
def Cache.get_minecraft_token (self : Cache) (now : ChronoDateTimeUtc) :
    Except String (Option String) :=
  self.minecraft_token.get_token now

/-- Cache::get_microsoft_refresh_token: plain accessor; the empty string
is the absent sentinel. -/
def Cache.get_microsoft_refresh_token (self : Cache) : String :=
  self.microsoft_refresh_token

/-- impl Default for Cache: empty refresh token, empty session token, and
the fixed expired timestamp 2011-11-18T12:00:00Z, which is 1321617600
seconds after the Unix epoch. -/
def Cache.defaultCache : Cache :=
  ⟨"", ⟨"", .offset 1321617600 0⟩⟩

/-- A structural TOML value, as far as the cache record needs: strings,
datetimes and tables. It stands in for the textual document that
toml_edit serializes and parses back; serde locates fields by name. -/
inductive TomlValue where
  | str (s : String)
  | datetime (d : TomlDatetime)
  | table (fields : List (String × TomlValue))

/-- Serialization of the cache record (toml_edit easy::to_string_pretty
via the Serialize derive): the two top-level fields and the inner
session-token table. -/
def Cache.toToml (c : Cache) : TomlValue :=
  .table [("microsoft_refresh_token", .str c.microsoft_refresh_token),
          ("minecraft_token", .table
            [("token", .str c.minecraft_token.token),
             ("expiry_time", .datetime c.minecraft_token.expiry_time)])]

/-- Deserialization of the cache record (the Deserialize derive): each
declared field is looked up by name and must have the declared shape;
anything else is a decode failure. -/
def Cache.fromToml (v : TomlValue) : Option Cache :=
  match v with
  | .table fields =>
    match fields.lookup "microsoft_refresh_token", fields.lookup "minecraft_token" with
    | some (.str refresh), some (.table inner) =>
      match inner.lookup "token", inner.lookup "expiry_time" with
      | some (.str token), some (.datetime expiry) => some ⟨refresh, ⟨token, expiry⟩⟩
      | _, _ => none
    | _, _ => none
  | _ => none

/-- Cache::save: overwrite the cache file with the serialized record; the
persisted document is the serialization itself. -/
def Cache.save (self : Cache) : TomlValue :=
  self.toToml

/-- Cache::get: a missing cache file is not an error and yields none; a
present file whose content does not decode is an error; otherwise the
decoded record is returned. -/
def Cache.get (file : Option TomlValue) : Except Unit (Option Cache) :=
  match file with
  | none => .ok none
  | some doc =>
    match Cache.fromToml doc with
    | some cache => .ok (some cache)
    | none => .error ()

/-- Cache::save_minecraft_token: replace the session token (with
second-truncated expiry) and persist the whole record. Returns the
updated in-memory record together with the full-record writes performed. -/
def Cache.save_minecraft_token (self : Cache) (token : String)
    (expiry_time : ChronoDateTimeUtc) : Cache × List TomlValue :=
  let updated : Cache :=
    ⟨self.microsoft_refresh_token, CachedSessionToken.new token expiry_time⟩
  (updated, [updated.save])

/-- Cache::save_microsoft_refresh_token (invoked from main under the name
save_microsoft_token): replace the refresh-token field and persist the
whole record again. -/
def Cache.save_microsoft_refresh_token (self : Cache) (token : String) :
    Cache × List TomlValue :=
  let updated : Cache := ⟨token, self.minecraft_token⟩
  (updated, [updated.save])

/-- A run of X characters of the given length, as produced by the
masking expression X repeated to the secret length in the Debug
implementations of src/cache.rs. -/
def maskX (n : Nat) : String :=
  String.mk (List.replicate n 'X')

/-- impl Debug for CachedSessionToken: the token text is replaced by a
run of X of the same length; the expiry is rendered as stored. The
punctuation of the Rust debug output is abstracted. -/
def CachedSessionToken.debugFmt (self : CachedSessionToken) : String :=
  "CachedSessionToken(token: " ++ maskX self.token.length ++
    ", expiry_time: " ++ self.expiry_time.render ++ ")"

/-- impl Debug for Cache: the refresh token is replaced by a run of X of
the same length; the session token is rendered by its own masking Debug
implementation. -/
def Cache.debugFmt (self : Cache) : String :=
  "Cache(microsoft_refresh_token: " ++ maskX self.microsoft_refresh_token.length ++
    ", minecraft_token: " ++ self.minecraft_token.debugFmt ++ ")"

/-- The Azure Application client ID (src/authentication.rs). -/
def CLIENT_ID : String := "54473e32-df8f-42e9-a649-9419b0dab9d3"

/-- AuthorizationTokenResponse: the Microsoft OAuth token-exchange
response (src/authentication.rs). -/
structure AuthorizationTokenResponse where
  token_type : String
  scope : String
  expires_in : Nat
  ext_expires_in : Nat
  access_token : String
  refresh_token : String
  id_token : String
deriving DecidableEq

/-- XboxLiveAuthenticationResponse: the platform and security-token
responses; display_claims models HashMap String (Vec (HashMap String
String)) as association lists. -/
structure XboxLiveAuthenticationResponse where
  issue_instant : String
  not_after : String
  token : String
  display_claims : List (String × List (List (String × String)))
deriving DecidableEq

/-- MinecraftAuthenticationResponse: the service-login response. -/
structure MinecraftAuthenticationResponse where
  username : String
  access_token : String
  token_type : String
  expires_in : Nat
deriving DecidableEq

/-- MinecraftProfileResponse: the profile lookup that follows the
service login. -/
structure MinecraftProfileResponse where
  id : String
  name : String
deriving DecidableEq

/-- AuthenticationRetrieveType (src/authentication.rs): how the returned
token was obtained. FromUserLogin carries the fields the caller persists. -/
inductive AuthenticationRetrieveType where
  | FromCache
  | FromUserLogin (microsoft_token : String) (expires_in : Nat)
deriving DecidableEq

/-- AuthenticationResult (src/authentication.rs). -/
structure AuthenticationResult where
  minecraft_token : String
  retrieve_type : AuthenticationRetrieveType
deriving DecidableEq

/-- The untyped nested lookup display_claims at key xui, index 0, key uhs
(src/authentication.rs line 180). Each of the three steps panics in Rust
when the key or index is absent; the model returns none there, which the
pipeline turns into a panic outcome. -/
def displayClaimsUserHash
    (dc : List (String × List (List (String × String)))) : Option String :=
  match dc.lookup "xui" with
  | none => none
  | some xuiList =>
    match xuiList with
    | [] => none
    | first :: _ => first.lookup "uhs"

/-- The Properties envelope of the platform-auth request. -/
structure XboxAuthProperties where
  authMethod : String
  siteName : String
  rpsTicket : String
deriving DecidableEq

/-- The platform-auth request payload, as the json macro builds it. -/
structure XboxAuthPayload where
  properties : XboxAuthProperties
  relyingParty : String
  tokenType : String
deriving DecidableEq

/-- The Properties envelope of the security-token request. -/
structure XstsProperties where
  sandboxId : String
  userTokens : List String
deriving DecidableEq

/-- The security-token request payload. -/
structure XstsPayload where
  properties : XstsProperties
  relyingParty : String
  tokenType : String
deriving DecidableEq

/-- One remote request, carrying the payload exactly as the source
builds it. -/
inductive Request where
  | authorizePage (form : List (String × String))
  | tokenExchange (form : List (String × String))
  | xboxAuthenticate (payload : XboxAuthPayload)
  | xstsAuthorize (payload : XstsPayload)
  | minecraftLogin (identityToken : String)
  | minecraftProfile (bearer : String)
deriving DecidableEq

/-- One observable side effect of a pipeline run. -/
inductive Event where
  | remoteCall (r : Request)
  | printLn (s : String)
  | printStr (s : String)
  | writeFile (path content : String)
  | readFile (path : String)
  | readUserLine
deriving DecidableEq

/-- Quotation of a string value inside a rendered text, as the Rust
Debug and JSON renderings quote it (escape sequences abstracted: the
claims only need that the rendered text embeds the value). -/
def jstr (s : String) : String :=
  "\"" ++ s ++ "\""

/-- Rendering of the token-exchange response written to
authorization_token.json. -/
def AuthorizationTokenResponse.renderJson (r : AuthorizationTokenResponse) : String :=
  "token_type: " ++ jstr r.token_type ++ ", scope: " ++ jstr r.scope ++
    ", expires_in: " ++ toString r.expires_in ++
    ", ext_expires_in: " ++ toString r.ext_expires_in ++
    ", access_token: " ++ jstr r.access_token ++
    ", refresh_token: " ++ jstr r.refresh_token ++
    ", id_token: " ++ jstr r.id_token

/-- Rendering of one claims map inside DisplayClaims. -/
def claimsMapRender (m : List (String × String)) : String :=
  "(" ++ String.intercalate ", " (m.map (fun kv => jstr kv.1 ++ ": " ++ jstr kv.2)) ++ ")"

/-- Rendering of the DisplayClaims structure. -/
def displayClaimsRender
    (dc : List (String × List (List (String × String)))) : String :=
  String.intercalate ", "
    (dc.map (fun kv =>
      jstr kv.1 ++ ": [" ++ String.intercalate ", " (kv.2.map claimsMapRender) ++ "]"))

/-- Rendering of an Xbox authentication response, used both for the file
writes and for the debug prints. -/
def XboxLiveAuthenticationResponse.renderJson
    (r : XboxLiveAuthenticationResponse) : String :=
  "IssueInstant: " ++ jstr r.issue_instant ++ ", NotAfter: " ++ jstr r.not_after ++
    ", Token: " ++ jstr r.token ++
    ", DisplayClaims: (" ++ displayClaimsRender r.display_claims ++ ")"

/-- Rendering of the service-login response. -/
def MinecraftAuthenticationResponse.renderJson
    (r : MinecraftAuthenticationResponse) : String :=
  "username: " ++ jstr r.username ++ ", access_token: " ++ jstr r.access_token ++
    ", token_type: " ++ jstr r.token_type ++ ", expires_in: " ++ toString r.expires_in

/-- Rendering of the profile response. -/
def MinecraftProfileResponse.renderJson (r : MinecraftProfileResponse) : String :=
  "id: " ++ jstr r.id ++ ", name: " ++ jstr r.name

/-- Rendering of the platform-auth payload, printed by the source before
the request is sent. -/
def XboxAuthPayload.render (p : XboxAuthPayload) : String :=
  "Properties: (AuthMethod: " ++ jstr p.properties.authMethod ++
    ", SiteName: " ++ jstr p.properties.siteName ++
    ", RpsTicket: " ++ jstr p.properties.rpsTicket ++
    "), RelyingParty: " ++ jstr p.relyingParty ++
    ", TokenType: " ++ jstr p.tokenType

/-- The environment of one run: the response each remote endpoint would
return if called (an error stands for a transport failure, a non-success
status or an undecodable body, all of which the question-mark operator
propagates identically), plus the line the user types for the
authorization code (read_line keeps the trailing newline). -/
structure World where
  login_page : Except Unit String
  user_code : String
  token_response : Except Unit AuthorizationTokenResponse
  xbox_response : Except Unit XboxLiveAuthenticationResponse
  xsts_response : Except Unit XboxLiveAuthenticationResponse
  minecraft_response : Except Unit MinecraftAuthenticationResponse
  profile_response : Except Unit MinecraftProfileResponse

/-- How a pipeline run fails: a propagated remote or IO failure, or a
Rust panic. -/
inductive AuthError where
  | remote
  | panicked (msg : String)
deriving DecidableEq

/-- Steps 1 to 6 of authenticate (src/authentication.rs lines 106 to
253): the interactive login flow that runs whenever no valid cached
token short-circuited. Returns the event trace and the outcome. -/
def loginFlow (world : World) : List Event × Except AuthError AuthenticationResult :=
  let e1 : List Event :=
    [.printLn "Generating login page...",
     .remoteCall (.authorizePage
       [("client_id", CLIENT_ID), ("response_type", "code"),
        ("scope", "XboxLive.signin%20offline_access")])]
  match world.login_page with
  | .error _ => (e1, .error .remote)
  | .ok login_html =>
    let e2 := e1 ++
      [.writeFile "index.html" login_html,
       .printLn "Saved login page to index.html, please open the file and enter the token generated",
       .printStr "Authorization code: ",
       .readUserLine]
    let code := world.user_code
    let e3 := e2 ++
      [.remoteCall (.tokenExchange
        [("client_id", CLIENT_ID), ("code", code),
         ("grant_type", "authorization_code"),
         ("redirect_uri", "https://mccteam.github.io/redirect.html")])]
    match world.token_response with
    | .error _ => (e3, .error .remote)
    | .ok authorization_token =>
      let e4 := e3 ++
        [.printLn ("Access token: " ++ jstr authorization_token.access_token),
         .writeFile "authorization_token.json" authorization_token.renderJson,
         .readFile "authorization_token.json"]
      let xbox_payload : XboxAuthPayload :=
        ⟨⟨"RPS", "user.auth.xboxlive.com",
          "d=" ++ authorization_token.access_token⟩,
         "http://auth.xboxlive.com", "JWT"⟩
      let e5 := e4 ++
        [.printLn xbox_payload.render,
         .remoteCall (.xboxAuthenticate xbox_payload)]
      match world.xbox_response with
      | .error _ => (e5, .error .remote)
      | .ok xbox_resp =>
        let e6 := e5 ++ [.writeFile "xbox_token.json" xbox_resp.renderJson]
        let xbox_token := xbox_resp.token
        match displayClaimsUserHash xbox_resp.display_claims with
        | none => (e6, .error (.panicked "no entry found for key"))
        | some user_hash =>
          let e7 := e6 ++ [.printLn xbox_resp.renderJson]
          let xsts_payload : XstsPayload :=
            ⟨⟨"RETAIL", [xbox_token]⟩, "rp://api.minecraftservices.com/", "JWT"⟩
          let e8 := e7 ++ [.remoteCall (.xstsAuthorize xsts_payload)]
          match world.xsts_response with
          | .error _ => (e8, .error .remote)
          | .ok xbox_security_token_resp =>
            let e9 := e8 ++
              [.writeFile "xbox_security_token.json" xbox_security_token_resp.renderJson,
               .printLn xbox_security_token_resp.renderJson]
            let xbox_security_token := xbox_security_token_resp.token
            let identity := "XBL3.0 x=" ++ user_hash ++ ";" ++ xbox_security_token
            let e10 := e9 ++ [.remoteCall (.minecraftLogin identity)]
            match world.minecraft_response with
            | .error _ => (e10, .error .remote)
            | .ok minecraft_resp =>
              let e11 := e10 ++
                [.writeFile "minecraft_token.json" minecraft_resp.renderJson,
                 .printLn minecraft_resp.renderJson]
              let minecraft_token := minecraft_resp.access_token
              let e12 := e11 ++ [.remoteCall (.minecraftProfile minecraft_token)]
              match world.profile_response with
              | .error _ => (e12, .error .remote)
              | .ok minecraft_profile_resp =>
                let e13 := e12 ++
                  [.writeFile "minecraft_profile.json" minecraft_profile_resp.renderJson,
                   .printLn minecraft_profile_resp.renderJson]
                (e13, .ok ⟨minecraft_token,
                  .FromUserLogin authorization_token.access_token
                    authorization_token.expires_in⟩)

/-- authenticate (src/authentication.rs lines 87 to 253): check the
supplied cache first and short-circuit on a valid session token,
otherwise run the interactive login flow. A panic inside
get_minecraft_token propagates. -/
def authenticate (world : World) (cache : Option Cache) (now : ChronoDateTimeUtc) :
    List Event × Except AuthError AuthenticationResult :=
  match cache with
  | some cache =>
    match cache.get_minecraft_token now with
    | .error msg => ([], .error (.panicked msg))
    | .ok (some token) =>
      ([.printLn "Cached token was valid!"], .ok ⟨token, .FromCache⟩)
    | .ok none =>
      let rest := loginFlow world
      (.printLn "Cached token was invalid, generating a new token..." :: rest.1, rest.2)
  | none => loginFlow world

/-- The path of the persisted cache record (src/cache.rs). -/
def CACHE_PATH : String := "cache.toml"

/-- Whether an event is a remote call. -/
def Event.isRemoteCall : Event → Bool
  | .remoteCall _ => true
  | _ => false

/-- Number of remote calls in a trace. -/
def countRemoteCalls (trace : List Event) : Nat :=
  (trace.filter Event.isRemoteCall).length

/-- Whether a form payload carries the given key with the given value. -/
def formHas (form : List (String × String)) (key value : String) : Bool :=
  form.any (fun kv => kv.1 == key && kv.2 == value)

/-- Whether an event is a token exchange using the refresh-token grant. -/
def Event.isRefreshGrant : Event → Bool
  | .remoteCall (.tokenExchange form) => formHas form "grant_type" "refresh_token"
  | _ => false

/-- Whether an event is a token exchange using the authorization-code
grant. -/
def Event.isAuthCodeGrant : Event → Bool
  | .remoteCall (.tokenExchange form) => formHas form "grant_type" "authorization_code"
  | _ => false

/-- Whether an event reads a line interactively from the user. -/
def Event.isUserRead : Event → Bool
  | .readUserLine => true
  | _ => false

/-- Number of refresh-grant token exchanges in a trace. -/
def countRefreshGrants (trace : List Event) : Nat :=
  (trace.filter Event.isRefreshGrant).length

/-- Number of authorization-code-grant token exchanges in a trace. -/
def countAuthCodeGrants (trace : List Event) : Nat :=
  (trace.filter Event.isAuthCodeGrant).length

/-- Number of interactive user reads in a trace. -/
def countUserReads (trace : List Event) : Nat :=
  (trace.filter Event.isUserRead).length

/-- Whether a trace writes the persisted cache record file. -/
def writesCacheFile : List Event → Bool
  | [] => false
  | .writeFile p _ :: rest => p == CACHE_PATH || writesCacheFile rest
  | _ :: rest => writesCacheFile rest

/-- Whether an outcome is a successful FromCache result. -/
def resultIsFromCache : Except AuthError AuthenticationResult → Bool
  | .ok r =>
    match r.retrieve_type with
    | .FromCache => true
    | _ => false
  | .error _ => false

/-- The commit phase of main (src/main.rs lines 35 to 50): after a
cached token nothing is written; after a fresh login with caching
enabled the caller stores the new session token and then the new
Microsoft token, each setter performing a full-record Cache::save.
Returns the final in-memory record and the list of cache writes. -/
def mainCommit (cache_enabled : Bool) (cache : Cache) (token : String)
    (now : ChronoDateTimeUtc) (retrieve_type : AuthenticationRetrieveType) :
    Cache × List TomlValue :=
  match retrieve_type with
  | .FromCache => (cache, [])
  | .FromUserLogin microsoft_token expires_in =>
    if cache_enabled then
      let step1 := cache.save_minecraft_token token (now.addSeconds expires_in)
      let step2 := step1.1.save_microsoft_refresh_token microsoft_token
      (step2.1, step1.2 ++ step2.2)
    else (cache, [])

/-- An environment in which every remote exchange succeeds with canned
values: the token exchange yields distinct access and refresh tokens and
its own expires_in of 3600, while the service login yields its own token
and an expires_in of 86400. -/
def successWorld : World :=
  { login_page := .ok "<html>login</html>"
    user_code := "M.C0DE\n"
    token_response := .ok ⟨"Bearer", "XboxLive.signin", 3600, 3600,
      "ACCESS_TOKEN_VALUE", "REFRESH_TOKEN_VALUE", "ID_TOKEN"⟩
    xbox_response := .ok ⟨"2020-01-01T00:00:00Z", "2020-01-02T00:00:00Z",
      "XBL_TOKEN", [("xui", [[("uhs", "USER_HASH")]])]⟩
    xsts_response := .ok ⟨"2020-01-01T00:00:00Z", "2020-01-02T00:00:00Z",
      "XSTS_TOKEN", [("xui", [[("uhs", "USER_HASH")]])]⟩
    minecraft_response := .ok ⟨"uuid", "MINECRAFT_TOKEN", "Bearer", 86400⟩
    profile_response := .ok ⟨"id", "PlayerName"⟩ }

/-- The same environment except that the platform-auth response carries
an empty DisplayClaims map, so the nested user-hash path is absent. -/
def noClaimWorld : World :=
  { successWorld with
      xbox_response := .ok ⟨"2020-01-01T00:00:00Z", "2020-01-02T00:00:00Z",
        "XBL_TOKEN", []⟩ }

/-- A cache whose refresh credential is non-empty and whose session
token expired at epoch second 100. -/
def expiredCache : Cache :=
  ⟨"REFRESH_CREDENTIAL", ⟨"OLD_TOKEN", .offset 100 0⟩⟩

/-- A cache whose session token is valid until epoch second 2000000000. -/
def validCache : Cache :=
  ⟨"", ⟨"CACHED_TOKEN", .offset 2000000000 0⟩⟩

/-- The interactive login flow never produces a FromCache outcome: every
terminal state is either a propagated failure, a panic, or FromUserLogin. -/
theorem loginFlow_not_fromCache (world : World) :
    resultIsFromCache (loginFlow world).2 = false := by
  obtain ⟨lp, uc, tr, xr, sr, mr, pr⟩ := world
  cases lp with
  | error e => rfl
  | ok page =>
    cases tr with
    | error e => rfl
    | ok tok =>
      cases xr with
      | error e => rfl
      | ok xresp =>
        rcases h : displayClaimsUserHash xresp.display_claims with _ | uhs <;>
          cases sr <;> cases mr <;> cases pr <;>
            simp [loginFlow, h, resultIsFromCache]

/-- The interactive login flow writes only its six fixed diagnostic and
token files, never the cache record file. -/
theorem loginFlow_no_cache_write (world : World) :
    writesCacheFile (loginFlow world).1 = false := by
  obtain ⟨lp, uc, tr, xr, sr, mr, pr⟩ := world
  cases lp with
  | error e => rfl
  | ok page =>
    cases tr with
    | error e => rfl
    | ok tok =>
      cases xr with
      | error e => rfl
      | ok xresp =>
        rcases h : displayClaimsUserHash xresp.display_claims with _ | uhs <;>
          cases sr <;> cases mr <;> cases pr <;>
            simp [loginFlow, h, writesCacheFile, CACHE_PATH]

/-- C1 counterexample: on a fully successful run the returned
FromUserLogin outcome carries the identity-provider ACCESS token (not
the refresh token obtained in step 2) and the token-exchange response
expires_in of 3600 (not the service-login expires_in of 86400), so the
claim fails at this input. -/
theorem authenticate_fromUserLogin_fields_cex :
    (authenticate successWorld none ⟨0, 0⟩).2 =
        .ok ⟨"MINECRAFT_TOKEN", .FromUserLogin "ACCESS_TOKEN_VALUE" 3600⟩ ∧
      "ACCESS_TOKEN_VALUE" ≠ "REFRESH_TOKEN_VALUE" ∧ (3600 : Nat) ≠ 86400 :=
  ⟨rfl, by decide, by decide⟩

/-- C1 (amended): for every pipeline run that does not short-circuit on
the cache and in which all remote exchanges succeed and the user-hash
claim is present, the returned FromUserLogin outcome carries
microsoft_token equal to the identity-provider access token of the
token-exchange step and expires_in equal to the expires_in field of that
same token-exchange response, and the terminal token is the
service-login access token. -/
theorem authenticate_fromUserLogin_carries_access_token_and_oauth_expiry
    (world : World) (cache : Option Cache) (now : ChronoDateTimeUtc)
    (page : String) (tok : AuthorizationTokenResponse)
    (xresp sresp : XboxLiveAuthenticationResponse) (uhs : String)
    (mresp : MinecraftAuthenticationResponse) (presp : MinecraftProfileResponse)
    (hcache : ∀ c, cache = some c → c.get_minecraft_token now = .ok none)
    (hpage : world.login_page = .ok page)
    (htok : world.token_response = .ok tok)
    (hxbox : world.xbox_response = .ok xresp)
    (huhs : displayClaimsUserHash xresp.display_claims = some uhs)
    (hxsts : world.xsts_response = .ok sresp)
    (hmc : world.minecraft_response = .ok mresp)
    (hprofile : world.profile_response = .ok presp) :
    (authenticate world cache now).2 =
      .ok ⟨mresp.access_token, .FromUserLogin tok.access_token tok.expires_in⟩ := by
  have hflow : (loginFlow world).2 =
      .ok ⟨mresp.access_token, .FromUserLogin tok.access_token tok.expires_in⟩ := by
    simp [loginFlow, hpage, htok, hxbox, huhs, hxsts, hmc, hprofile]
  cases cache with
  | none => simpa [authenticate] using hflow
  | some c => simp [authenticate, hcache c rfl, hflow]

/-- C1 witness: the amended statement evaluated on the canned successful
environment. -/
theorem authenticate_fromUserLogin_carries_access_token_witness :
    (authenticate successWorld none ⟨0, 0⟩).2 =
      .ok ⟨"MINECRAFT_TOKEN", .FromUserLogin "ACCESS_TOKEN_VALUE" 3600⟩ :=
  authenticate_fromUserLogin_carries_access_token_and_oauth_expiry
    successWorld none ⟨0, 0⟩ "<html>login</html>"
    ⟨"Bearer", "XboxLive.signin", 3600, 3600,
      "ACCESS_TOKEN_VALUE", "REFRESH_TOKEN_VALUE", "ID_TOKEN"⟩
    ⟨"2020-01-01T00:00:00Z", "2020-01-02T00:00:00Z",
      "XBL_TOKEN", [("xui", [[("uhs", "USER_HASH")]])]⟩
    ⟨"2020-01-01T00:00:00Z", "2020-01-02T00:00:00Z",
      "XSTS_TOKEN", [("xui", [[("uhs", "USER_HASH")]])]⟩
    "USER_HASH" ⟨"uuid", "MINECRAFT_TOKEN", "Bearer", 86400⟩ ⟨"id", "PlayerName"⟩
    (fun _ hc => nomatch hc) rfl rfl rfl rfl rfl rfl rfl

/-- C2 counterexample: with a cache whose session token is expired and
whose refresh credential is the non-empty string REFRESH_CREDENTIAL, the
run performs one interactive user-code read and zero refresh-grant
exchanges, contradicting the claim that no interactive acquisition
happens and exactly one refresh grant is issued. -/
theorem expired_cache_interactive_not_refresh_cex :
    expiredCache.get_microsoft_refresh_token ≠ "" ∧
      expiredCache.get_minecraft_token ⟨1700000000, 0⟩ = .ok none ∧
      countUserReads (authenticate successWorld (some expiredCache) ⟨1700000000, 0⟩).1 = 1 ∧
      countRefreshGrants (authenticate successWorld (some expiredCache) ⟨1700000000, 0⟩).1 = 0 :=
  ⟨by decide, rfl, rfl, rfl⟩

/-- C2 (amended): for every supplied cache whose session token is
expired, whatever its refresh credential, once the authorize page is
retrieved the pipeline performs interactive code acquisition exactly
once, issues no refresh-grant exchange at all, and issues exactly one
token exchange, which uses the authorization-code grant. -/
theorem expired_cache_single_authorization_code_grant
    (world : World) (cache : Cache) (now : ChronoDateTimeUtc) (page : String)
    (hexp : cache.get_minecraft_token now = .ok none)
    (hpage : world.login_page = .ok page) :
    countRefreshGrants (authenticate world (some cache) now).1 = 0 ∧
      countUserReads (authenticate world (some cache) now).1 = 1 ∧
      countAuthCodeGrants (authenticate world (some cache) now).1 = 1 := by
  rcases htr : world.token_response with _ | tok
  · refine ⟨?_, ?_, ?_⟩ <;>
      simp [authenticate, hexp, loginFlow, hpage, htr, countRefreshGrants,
        countUserReads, countAuthCodeGrants, Event.isRefreshGrant, Event.isUserRead,
        Event.isAuthCodeGrant, formHas, List.filter_append]
  · rcases hxr : world.xbox_response with _ | xresp
    · refine ⟨?_, ?_, ?_⟩ <;>
        simp [authenticate, hexp, loginFlow, hpage, htr, hxr, countRefreshGrants,
          countUserReads, countAuthCodeGrants, Event.isRefreshGrant, Event.isUserRead,
          Event.isAuthCodeGrant, formHas, List.filter_append]
    · rcases huhs : displayClaimsUserHash xresp.display_claims with _ | uhs <;>
        rcases hsr : world.xsts_response with _ | sresp <;>
        rcases hmr : world.minecraft_response with _ | mresp <;>
        rcases hpr : world.profile_response with _ | presp <;>
        refine ⟨?_, ?_, ?_⟩ <;>
        simp [authenticate, hexp, loginFlow, hpage, htr, hxr, huhs, hsr, hmr, hpr,
          countRefreshGrants, countUserReads, countAuthCodeGrants, Event.isRefreshGrant,
          Event.isUserRead, Event.isAuthCodeGrant, formHas, List.filter_append]

/-- C2 witness: the amended statement evaluated on the expired cache and
the canned successful environment. -/
theorem expired_cache_single_authorization_code_grant_witness :
    countRefreshGrants (authenticate successWorld (some expiredCache) ⟨1700000000, 0⟩).1 = 0 ∧
      countUserReads (authenticate successWorld (some expiredCache) ⟨1700000000, 0⟩).1 = 1 ∧
      countAuthCodeGrants (authenticate successWorld (some expiredCache) ⟨1700000000, 0⟩).1 = 1 :=
  expired_cache_single_authorization_code_grant successWorld expiredCache
    ⟨1700000000, 0⟩ "<html>login</html>" rfl rfl

/-- C3: when the platform-auth response lacks the nested user-hash field
(first element of the xui list, uhs field), the run aborts and issues no
further remote calls: only the authorize-page, token-exchange and
platform-auth calls have happened. The abort, however, is a Rust panic
from the untyped index into the claims map, not a MissingClaim error
value returned to the caller. -/
theorem missing_user_hash_panics_without_further_calls :
    (authenticate noClaimWorld none ⟨0, 0⟩).2 = .error (.panicked "no entry found for key") ∧
      countRemoteCalls (authenticate noClaimWorld none ⟨0, 0⟩).1 = 3 :=
  ⟨rfl, rfl⟩

/-- C4 counterexample: a successful fresh login with caching enabled
makes the caller persist the cache record twice (once per updated
field), so the record is not written at most once. -/
theorem cache_written_twice_per_fresh_login_cex :
    (mainCommit true expiredCache "NEW_MC_TOKEN" ⟨1700000000, 0⟩
        (.FromUserLogin "NEW_MS_TOKEN" 3600)).2.length = 2 ∧ ¬ (2 : Nat) ≤ 1 :=
  ⟨rfl, by decide⟩

/-- C4 (amended): the authenticate pipeline itself never writes the
persisted cache record under any environment, cache or clock, so calling
it has no side effect on the cache store; all cache writes happen in the
commit phase of main after the pipeline returns, and that phase performs
at most two full-record writes, exactly two after a fresh login with
caching enabled and none otherwise. -/
theorem pipeline_never_writes_cache_and_commit_writes_at_most_twice
    (world : World) (cache : Option Cache) (now : ChronoDateTimeUtc)
    (enabled : Bool) (c : Cache) (token : String) (now2 : ChronoDateTimeUtc)
    (rt : AuthenticationRetrieveType) (ms : String) (expiresIn : Nat) :
    writesCacheFile (authenticate world cache now).1 = false ∧
      (mainCommit enabled c token now2 rt).2.length ≤ 2 ∧
      (mainCommit true c token now2 (.FromUserLogin ms expiresIn)).2.length = 2 := by
  refine ⟨?_, ?_, rfl⟩
  · cases cache with
    | none => simpa [authenticate] using loginFlow_no_cache_write world
    | some cc =>
      rcases hg : cc.get_minecraft_token now with msg | t
      · simp [authenticate, hg, writesCacheFile]
      · cases t with
        | none => simp [authenticate, hg, writesCacheFile, loginFlow_no_cache_write]
        | some tk => simp [authenticate, hg, writesCacheFile]
  · cases rt <;> cases enabled <;>
      simp [mainCommit, Cache.save_minecraft_token, Cache.save_microsoft_refresh_token]

set_option maxRecDepth 8192 in
/-- C5 counterexample: the pipeline prints the identity-provider access
token in the clear and persists the complete token-exchange response,
secrets included, to authorization_token.json, so a run does print and
persist tokens in the clear. -/
theorem pipeline_prints_and_persists_access_token_cex :
    Event.printLn ("Access token: " ++ jstr "ACCESS_TOKEN_VALUE") ∈
        (authenticate successWorld none ⟨0, 0⟩).1 ∧
      Event.writeFile "authorization_token.json"
          (AuthorizationTokenResponse.renderJson ⟨"Bearer", "XboxLive.signin", 3600, 3600,
            "ACCESS_TOKEN_VALUE", "REFRESH_TOKEN_VALUE", "ID_TOKEN"⟩) ∈
        (authenticate successWorld none ⟨0, 0⟩).1 :=
  ⟨by decide, by decide⟩

/-- C5 (amended): the Debug rendering of the cache record depends on the
two secret fields only through their lengths (they are masked by a run
of X of the same length) while the expiry stays visible, so no cache
record rendering leaks a token; but the pipeline itself prints the
identity-provider access token in the clear on every run that reaches
the token-exchange step. -/
theorem cache_debug_masks_secrets_but_pipeline_prints_tokens
    (ca cb : Cache) (world : World) (cache : Option Cache)
    (now : ChronoDateTimeUtc) (page : String) (tok : AuthorizationTokenResponse)
    (hlen1 : ca.microsoft_refresh_token.length = cb.microsoft_refresh_token.length)
    (hlen2 : ca.minecraft_token.token.length = cb.minecraft_token.token.length)
    (hexp : ca.minecraft_token.expiry_time = cb.minecraft_token.expiry_time)
    (hcache : ∀ c, cache = some c → c.get_minecraft_token now = .ok none)
    (hpage : world.login_page = .ok page)
    (htok : world.token_response = .ok tok) :
    Cache.debugFmt ca = Cache.debugFmt cb ∧
      Event.printLn ("Access token: " ++ jstr tok.access_token) ∈
        (authenticate world cache now).1 := by
  constructor
  · simp [Cache.debugFmt, CachedSessionToken.debugFmt, hlen1, hlen2, hexp]
  · have hmem : Event.printLn ("Access token: " ++ jstr tok.access_token) ∈
        (loginFlow world).1 := by
      rcases hxr : world.xbox_response with _ | xresp
      · simp [loginFlow, hpage, htok, hxr]
      · rcases huhs : displayClaimsUserHash xresp.display_claims with _ | uhs <;>
          rcases hsr : world.xsts_response with _ | sresp <;>
          rcases hmr : world.minecraft_response with _ | mresp <;>
          rcases hpr : world.profile_response with _ | presp <;>
          simp [loginFlow, hpage, htok, hxr, huhs, hsr, hmr, hpr]
    cases cache with
    | none => simpa [authenticate] using hmem
    | some c =>
      have hc := hcache c rfl
      simp only [authenticate, hc]
      exact List.mem_cons_of_mem _ hmem

/-- C5 witness: the amended statement evaluated on a concrete record and
the canned successful environment. -/
theorem cache_debug_masks_secrets_witness :
    Cache.debugFmt expiredCache = Cache.debugFmt expiredCache ∧
      Event.printLn ("Access token: " ++ jstr "ACCESS_TOKEN_VALUE") ∈
        (authenticate successWorld none ⟨0, 0⟩).1 :=
  cache_debug_masks_secrets_but_pipeline_prints_tokens expiredCache expiredCache
    successWorld none ⟨0, 0⟩ "<html>login</html>"
    ⟨"Bearer", "XboxLive.signin", 3600, 3600,
      "ACCESS_TOKEN_VALUE", "REFRESH_TOKEN_VALUE", "ID_TOKEN"⟩
    rfl rfl rfl (fun _ hc => nomatch hc) rfl rfl

/-- C6: for every supplied cache whose session token expiry (an offset
datetime at instant s seconds, n nanoseconds) is strictly later than the
current instant, the pipeline performs zero remote calls and returns
FromCache carrying exactly the stored token string. -/
theorem valid_cached_token_short_circuits_without_remote_calls
    (world : World) (cache : Cache) (now : ChronoDateTimeUtc) (s : Int) (n : Nat)
    (hp : cache.minecraft_token.expiry_time = .offset s n)
    (hfuture : now.toNanos < s * 1000000000 + (n : Int)) :
    countRemoteCalls (authenticate world (some cache) now).1 = 0 ∧
      (authenticate world (some cache) now).2 =
        .ok ⟨cache.minecraft_token.token, .FromCache⟩ := by
  simp [ChronoDateTimeUtc.toNanos] at hfuture
  have h : cache.get_minecraft_token now = .ok (some cache.minecraft_token.token) := by
    simp [Cache.get_minecraft_token, CachedSessionToken.get_token, hp,
      TomlDatetime.chronoParse, ChronoDateTimeUtc.toNanos, hfuture]
  refine ⟨?_, ?_⟩ <;>
    simp [authenticate, h, countRemoteCalls, Event.isRemoteCall]

/-- C6 witness: the statement evaluated on a cache valid until epoch
second 2000000000, checked at epoch second 0. -/
theorem valid_cached_token_short_circuits_witness :
    countRemoteCalls (authenticate successWorld (some validCache) ⟨0, 0⟩).1 = 0 ∧
      (authenticate successWorld (some validCache) ⟨0, 0⟩).2 =
        .ok ⟨"CACHED_TOKEN", .FromCache⟩ :=
  valid_cached_token_short_circuits_without_remote_calls successWorld validCache
    ⟨0, 0⟩ 2000000000 0 rfl (by decide)

/-- C7: for every cache record whose stored expiry is a parseable
timestamp (an offset datetime at instant s seconds, n nanoseconds), the
session-token validity check returns Ok of some of the stored token
unchanged exactly when the expiry is strictly later than the current
instant, and Ok none otherwise: an expired token is reported as absence,
never as an error. -/
theorem get_token_returns_token_iff_expiry_in_future
    (st : CachedSessionToken) (now : ChronoDateTimeUtc) (s : Int) (n : Nat)
    (hp : st.expiry_time = .offset s n) :
    st.get_token now =
      .ok (if now.toNanos < s * 1000000000 + (n : Int) then some st.token else none) := by
  simp [CachedSessionToken.get_token, hp, TomlDatetime.chronoParse,
    ChronoDateTimeUtc.toNanos, apply_ite]

/-- C7 witness: the statement evaluated on a token expiring at epoch
second 10, checked at epoch second 0 (valid) by reduction of the
conditional. -/
theorem get_token_returns_token_iff_expiry_in_future_witness :
    CachedSessionToken.get_token ⟨"MC_TOKEN", .offset 10 0⟩ ⟨0, 0⟩ = .ok (some "MC_TOKEN") :=
  get_token_returns_token_iff_expiry_in_future ⟨"MC_TOKEN", .offset 10 0⟩ ⟨0, 0⟩ 10 0 rfl

/-- C8: on a cache record whose stored expiry is a TOML local date,
which decodes as a valid TOML datetime but which chrono cannot re-parse
as a timestamp, the expiry-validity check does not return a value or an
explicit error: it panics, crashing the process on a corrupt cache
file. -/
theorem get_token_panics_on_unparsable_timestamp :
    CachedSessionToken.get_token ⟨"MC_TOKEN", .localDate 2011 11 18⟩ ⟨1700000000, 0⟩ =
      .error "Failed to parse expiry time local-date 2011-11-18" :=
  rfl

/-- C9: persisting any cache record with save and reloading it with get
yields the record unchanged in every field, and the session-token
constructor truncates the expiry instant to whole-second precision
before persisting, so timestamps round-trip losslessly at that
precision. -/
theorem cache_save_get_roundtrip_with_second_truncation
    (c : Cache) (token : String) (expiry : ChronoDateTimeUtc) :
    Cache.get (some (Cache.save c)) = .ok (some c) ∧
      (CachedSessionToken.new token expiry).expiry_time = .offset expiry.secs 0 :=
  ⟨rfl, rfl⟩

/-- C10: the default cache record has an empty refresh credential, and
at every check instant later than 2011-11-18T12:00:00Z (epoch second
1321617600) its session-token validity check returns Ok none, so a
fresh default cache can never make the pipeline short-circuit with a
cached token. -/
theorem default_cache_empty_refresh_and_always_stale
    (world : World) (now : ChronoDateTimeUtc)
    (h : (1321617600 : Int) * 1000000000 < now.toNanos) :
    Cache.defaultCache.get_microsoft_refresh_token = "" ∧
      Cache.defaultCache.get_minecraft_token now = .ok none ∧
      resultIsFromCache (authenticate world (some Cache.defaultCache) now).2 = false := by
  simp [ChronoDateTimeUtc.toNanos] at h
  have hg : Cache.defaultCache.get_minecraft_token now = .ok none := by
    simp [Cache.defaultCache, Cache.get_minecraft_token, CachedSessionToken.get_token,
      TomlDatetime.chronoParse, ChronoDateTimeUtc.toNanos]
    omega
  refine ⟨rfl, hg, ?_⟩
  simp [authenticate, hg, loginFlow_not_fromCache]

/-- C10 witness: the statement evaluated at epoch second 1700000000 on
the canned successful environment. -/
theorem default_cache_empty_refresh_and_always_stale_witness :
    Cache.defaultCache.get_microsoft_refresh_token = "" ∧
      Cache.defaultCache.get_minecraft_token ⟨1700000000, 0⟩ = .ok none ∧
      resultIsFromCache
        (authenticate successWorld (some Cache.defaultCache) ⟨1700000000, 0⟩).2 = false :=
  default_cache_empty_refresh_and_always_stale successWorld ⟨1700000000, 0⟩ (by decide)

end MCC
